import Mathlib

/-!
Verification of the cyclescope-daily-pulse newsletter service.

This file gives a shallow embedding of the service's core data model and
operations — the date-keyed newsletter record store (`src/models/newsletter.js`),
the generation orchestrator (`src/services/newsletterService.js` together with
the TTS fallback logic of `src/services/ttsService.js`), the retention/cleanup
subsystem (`src/services/cleanupService.js`), and the HTTP route handlers of
`src/routes/newsletter.js` — and proves properties of these definitions.

Conventions:
* machine time is milliseconds since the Unix epoch, as a `Nat`;
* `publish_date` values are `YYYY-MM-DD` strings; lexicographic string order
  on such strings coincides with the chronological order used by the SQL
  `DATE` comparisons in the source;
* JavaScript falsy-coalescing (`x || dflt`) on the upsert inputs is embedded
  explicitly (`normOpt`, `normNat`, `normStr`);
* fallible collaborators (the Gemini content generator, the TTS narration
  call, the final database write) are inputs to the orchestrator, supplied
  through a `GenEnv` environment.
-/

/-- One entry of the `sections` JSONB column: `{heading, content}`. -/
structure NSection where
  heading : String
  content : String
deriving DecidableEq

/-- One entry of the `sources` JSONB column: `{url, title}`. -/
structure SourceRef where
  url : String
  title : String
deriving DecidableEq

/-- A row of the `daily_newsletters` table (see the migration script and
`src/models/newsletter.js`). -/
structure Row where
  id : Nat
  publish_date : String
  title : String
  hook : String
  sections : List NSection
  conclusion : String
  sources : List SourceRef
  audio_url : Option String
  audio_duration_seconds : Option Nat
  generation_status : String
  error_message : Option String
  created_at : Nat
  updated_at : Nat
deriving DecidableEq

/-- The record store: the `daily_newsletters` table plus the `SERIAL`
sequence backing the `id` column. -/
structure Store where
  rows : List Row
  nextId : Nat
deriving DecidableEq

/-- The argument object of `Newsletter.create(data)`.  Optional JS fields
(`data.audio_url`, `data.audio_duration_seconds`, `data.generation_status`,
`data.error_message`) are `Option`s here; absent means `undefined`. -/
structure CreateData where
  publish_date : String
  title : String
  hook : String
  sections : List NSection
  conclusion : String
  sources : List SourceRef
  audio_url : Option String := none
  audio_duration_seconds : Option Nat := none
  generation_status : Option String := none
  error_message : Option String := none
deriving DecidableEq

/-- JS `x || null` on an optional string: `undefined`, `null` and the empty
string all collapse to `null`. -/
def normOpt : Option String → Option String
  | none => none
  | some s => if s = "" then none else some s

/-- JS `x || null` on an optional number: `undefined`, `null` and `0` all
collapse to `null`. -/
def normNat : Option Nat → Option Nat
  | none => none
  | some n => if n = 0 then none else some n

/-- JS `x || dflt` on an optional string with a string default
(`data.generation_status || 'pending'`). -/
def normStr (o : Option String) (dflt : String) : String :=
  match o with
  | none => dflt
  | some s => if s = "" then dflt else s

/-- The row inserted by `Newsletter.create` when no row with the key exists:
`created_at` and `updated_at` come from the database `NOW()` defaults, `id`
from the serial sequence. -/
def freshRow (id : Nat) (d : CreateData) (now : Nat) : Row :=
  { id := id
    publish_date := d.publish_date
    title := d.title
    hook := d.hook
    sections := d.sections
    conclusion := d.conclusion
    sources := d.sources
    audio_url := normOpt d.audio_url
    audio_duration_seconds := normNat d.audio_duration_seconds
    generation_status := normStr d.generation_status "pending"
    error_message := normOpt d.error_message
    created_at := now
    updated_at := now }

/-- The `ON CONFLICT (publish_date) DO UPDATE` arm of `Newsletter.create`:
every content field is overwritten from `EXCLUDED`, `updated_at` is set to
`NOW()`, while `id`, `publish_date` and `created_at` are left untouched. -/
def updateRow (old : Row) (d : CreateData) (now : Nat) : Row :=
  { old with
    title := d.title
    hook := d.hook
    sections := d.sections
    conclusion := d.conclusion
    sources := d.sources
    audio_url := normOpt d.audio_url
    audio_duration_seconds := normNat d.audio_duration_seconds
    generation_status := normStr d.generation_status "pending"
    error_message := normOpt d.error_message
    updated_at := now }

/-- `Newsletter.create(data)`: upsert keyed by `publish_date`; returns the
updated store and the `RETURNING *` row. -/
def Newsletter.create (st : Store) (now : Nat) (d : CreateData) : Store × Row :=
  match st.rows.find? (fun r => decide (r.publish_date = d.publish_date)) with
  | some old =>
      let r := updateRow old d now
      ({ st with
          rows := st.rows.map (fun x => if x.publish_date = d.publish_date then r else x) },
       r)
  | none =>
      let r := freshRow st.nextId d now
      ({ rows := st.rows ++ [r], nextId := st.nextId + 1 }, r)

/-- `Newsletter.getByDate(publishDate)`: exact lookup. -/
def Newsletter.getByDate (st : Store) (d : String) : Option Row :=
  st.rows.find? (fun r => decide (r.publish_date = d))

/-- Insertion step for sorting rows by `publish_date` ascending. -/
def insertAsc (r : Row) : List Row → List Row
  | [] => [r]
  | x :: xs => if r.publish_date ≤ x.publish_date then r :: x :: xs else x :: insertAsc r xs

/-- Insertion sort by `publish_date` ascending (`ORDER BY publish_date ASC`). -/
def sortByDateAsc (l : List Row) : List Row :=
  l.foldr insertAsc []

/-- Insertion step for sorting rows by `publish_date` descending. -/
def insertDesc (r : Row) : List Row → List Row
  | [] => [r]
  | x :: xs => if x.publish_date ≤ r.publish_date then r :: x :: xs else x :: insertDesc r xs

/-- Insertion sort by `publish_date` descending (`ORDER BY publish_date DESC`). -/
def sortByDateDesc (l : List Row) : List Row :=
  l.foldr insertDesc []

/-- `Newsletter.getAll()`: every row, `publish_date` descending. -/
def Newsletter.getAll (st : Store) : List Row :=
  sortByDateDesc st.rows

/-- `Newsletter.getHistory(limit)`: rows with `generation_status = 'complete'`,
`publish_date` descending, bounded by `LIMIT`. -/
def Newsletter.getHistory (st : Store) (limit : Nat) : List Row :=
  (sortByDateDesc (st.rows.filter (fun r => decide (r.generation_status = "complete")))).take limit

/-- `Newsletter.getOlderThan(date)`: rows with `publish_date < $1`,
`publish_date` ascending. -/
def Newsletter.getOlderThan (st : Store) (cutoff : String) : List Row :=
  sortByDateAsc (st.rows.filter (fun r => decide (r.publish_date < cutoff)))

/-- `Newsletter.deleteOlderThan(date)`: `DELETE ... WHERE publish_date < $1`;
returns the new store and `result.rowCount`. -/
def Newsletter.deleteOlderThan (st : Store) (cutoff : String) : Store × Nat :=
  ({ st with rows := st.rows.filter (fun r => !decide (r.publish_date < cutoff)) },
   (st.rows.filter (fun r => decide (r.publish_date < cutoff))).length)

/-! ### Artifact store and clock -/

/-- An audio artifact descriptor: file name, `fs.stat` size in bytes and
`mtime` in epoch milliseconds. -/
structure AudioFile where
  name : String
  size : Nat
  mtime : Nat
deriving DecidableEq

/-- The audio storage directory.  `dirExists` models the `fs.access` probe
in `cleanupAudioFiles` resp. the caught `readdir` failure in
`getCleanupStats`; a missing directory is not an error. -/
structure FS where
  dirExists : Bool
  files : List AudioFile
deriving DecidableEq

/-- JS `String.prototype.endsWith`, as a structurally recursive check on
the character data (the listing filter `f.endsWith('.wav')`). -/
def strEndsWith (s suffix : String) : Bool :=
  suffix.data.isSuffixOf s.data

/-- Milliseconds in a day. -/
def dayMs : Nat := 86400000

/-- `RETENTION_POLICY.AUDIO_DAYS`. -/
def audioRetentionDays : Nat := 14

/-- `RETENTION_POLICY.NEWSLETTER_DAYS`. -/
def newsletterRetentionDays : Nat := 365

/-- The audio cutoff timestamp: `new Date()` minus `AUDIO_DAYS` days
(calendar-day subtraction in UTC equals a fixed millisecond offset). -/
def audioCutoffMs (now : Nat) : Nat := now - audioRetentionDays * dayMs

/-- The newsletter cutoff timestamp, before its conversion to a date string. -/
def newsletterCutoffMs (now : Nat) : Nat := now - newsletterRetentionDays * dayMs

/-- Civil date from a day count since 1970-01-01 (proleptic Gregorian),
the standard days-to-civil conversion that `Date.prototype.toISOString`
performs for non-negative timestamps.  Returns `(year, month, day)`. -/
def civilFromDays (z : Nat) : Nat × Nat × Nat :=
  let z' := z + 719468
  let era := z' / 146097
  let doe := z' % 146097
  let yoe := (doe - doe / 1460 + doe / 36524 - doe / 146096) / 365
  let y := yoe + era * 400
  let doy := doe - (365 * yoe + yoe / 4 - yoe / 100)
  let mp := (5 * doy + 2) / 153
  let dd := doy - (153 * mp + 2) / 5 + 1
  let m := if mp < 10 then mp + 3 else mp - 9
  (if m ≤ 2 then y + 1 else y, m, dd)

/-- Left-pad a decimal numeral with zeros to width `w`. -/
def padZero (w : Nat) (n : Nat) : String :=
  let s := toString n
  if s.length < w then String.mk (List.replicate (w - s.length) '0') ++ s else s

/-- `date.toISOString().split('T')[0]` for an epoch-millisecond timestamp. -/
def toISODate (ms : Nat) : String :=
  let c := civilFromDays (ms / dayMs)
  padZero 4 c.1 ++ "-" ++ padZero 2 c.2.1 ++ "-" ++ padZero 2 c.2.2

/-! ### Cleanup service -/

/-- The per-file loop of `cleanupAudioFiles`: iterate the `.wav` entries of
the directory listing and `unlink` each whose `mtime` is strictly before the
cutoff.  Returns the surviving directory contents and the number of
deletions (non-`.wav` entries are never visited by the loop because the
listing is filtered by `f.endsWith('.wav')` first). -/
def deleteOldWav (cutoff : Nat) : List AudioFile → List AudioFile × Nat
  | [] => ([], 0)
  | f :: rest =>
    let (keep, n) := deleteOldWav cutoff rest
    if strEndsWith f.name ".wav" && decide (f.mtime < cutoff) then (keep, n + 1)
    else (f :: keep, n)

/-- `cleanupAudioFiles()`: zero work when the directory is missing, else the
deletion loop over the listing. -/
def cleanupAudioFiles (fs : FS) (now : Nat) : FS × Nat :=
  if fs.dirExists then
    let out := deleteOldWav (audioCutoffMs now) fs.files
    ({ fs with files := out.1 }, out.2)
  else (fs, 0)

/-- `cleanupNewsletterRecords()`: compute the text cutoff date string, list
the stale rows (for logging), return early when there are none, otherwise
bulk-delete and report the returned count. -/
def cleanupNewsletterRecords (st : Store) (now : Nat) : Store × Nat :=
  let cutoffStr := toISODate (newsletterCutoffMs now)
  let old := Newsletter.getOlderThan st cutoffStr
  if old.length = 0 then (st, 0)
  else
    let out := Newsletter.deleteOlderThan st cutoffStr
    (out.1, out.2)

/-- The summary object returned by `runCleanup()` (timestamps and duration
omitted; in this pure embedding no per-file or database error occurs, so the
error counters are zero). -/
structure CleanupResults where
  audioFilesDeleted : Nat
  audioErrors : Nat
  newslettersDeleted : Nat
  databaseErrors : Nat
deriving DecidableEq

/-- The complete effect of one `runCleanup()` invocation. -/
structure CleanupRun where
  fsAfter : FS
  stAfter : Store
  results : CleanupResults
deriving DecidableEq

/-- `runCleanup()`: audio pass, then database pass, then the summary. -/
def runCleanup (fs : FS) (st : Store) (now : Nat) : CleanupRun :=
  let audio := cleanupAudioFiles fs now
  let db := cleanupNewsletterRecords st now
  { fsAfter := audio.1
    stAfter := db.1
    results :=
      { audioFilesDeleted := audio.2
        audioErrors := 0
        newslettersDeleted := db.2
        databaseErrors := 0 } }

/-- Audio half of the `getCleanupStats()` accumulator.  Sizes are kept in
bytes (the source accumulates the same selection, scaled to megabytes). -/
structure AudioStats where
  total : Nat
  toDelete : Nat
  totalSize : Nat
  toDeleteSize : Nat
deriving DecidableEq

/-- The per-file statistics loop of `getCleanupStats()`, over the `.wav`
entries of the listing: every file adds to the totals, and a file strictly
older than the cutoff also adds to the to-delete figures. -/
def statsLoop (cutoff : Nat) : List AudioFile → AudioStats
  | [] => { total := 0, toDelete := 0, totalSize := 0, toDeleteSize := 0 }
  | f :: rest =>
    let s := statsLoop cutoff rest
    { total := s.total + 1
      totalSize := s.totalSize + f.size
      toDelete := s.toDelete + (if f.mtime < cutoff then 1 else 0)
      toDeleteSize := s.toDeleteSize + (if f.mtime < cutoff then f.size else 0) }

/-- The snapshot returned by `getCleanupStats()`. -/
structure CleanupStats where
  audioFiles : AudioStats
  newslettersTotal : Nat
  newslettersToDelete : Nat
  audioCutoffDate : String
  newsletterCutoffDate : String
deriving DecidableEq

/-- `getCleanupStats()`: read-only preview of both cleanup halves. -/
def getCleanupStats (fs : FS) (st : Store) (now : Nat) : CleanupStats :=
  let audioCutoff := audioCutoffMs now
  let newsletterCutoffStr := toISODate (newsletterCutoffMs now)
  { audioFiles :=
      if fs.dirExists then
        statsLoop audioCutoff (fs.files.filter (fun f => strEndsWith f.name ".wav"))
      else { total := 0, toDelete := 0, totalSize := 0, toDeleteSize := 0 }
    newslettersTotal := (Newsletter.getAll st).length
    newslettersToDelete := (Newsletter.getOlderThan st newsletterCutoffStr).length
    audioCutoffDate := toISODate audioCutoff
    newsletterCutoffDate := newsletterCutoffStr }

/-! ### Generation orchestrator -/

/-- The structured document returned by `generateNewsletterContent`. -/
structure Content where
  title : String
  hook : String
  sections : List NSection
  conclusion : String
  sources : List SourceRef
deriving DecidableEq

/-- Outcomes of the external collaborators during one `generateDailyNewsletter`
run: the Gemini content call (result or thrown message), whether the primary
TTS call together with its file write succeeds, whether the placeholder write
attempted after a TTS failure succeeds (and the thrown message when it does
not), whether the final database write throws, the PCM payload size and the
duration estimate computed from the script. -/
structure GenEnv where
  content : Except String Content
  ttsOk : Bool
  ttsErrMsg : String
  placeholderOk : Bool
  placeholderErrMsg : String
  saveFail : Option String
  pcmBytes : Nat
  durationSeconds : Nat

/-- `config.publicUrl` default. -/
def configPublicUrl : String := "http://localhost:3001"

/-- The deterministic audio file name for a date. -/
def audioFileName (d : String) : String := "daily-pulse-" ++ d ++ ".wav"

/-- `getAudioPublicUrl(fileName)` applied to the file name for `d`. -/
def audioPublicUrl (d : String) : String :=
  configPublicUrl ++ "/audio/" ++ audioFileName d

/-- Byte size of the silent placeholder WAV written by
`createPlaceholderAudio`: a 44-byte header plus one second of 44.1 kHz
16-bit mono samples. -/
def placeholderBytes : Nat := 44 + 44100 * 1 * 2

/-- `fs.writeFile` into the audio directory: the entry at `name` is
replaced (or created) with the given size, stamped with the write time. -/
def writeAudio (files : List AudioFile) (name : String) (size : Nat) (now : Nat) :
    List AudioFile :=
  files.filter (fun f => !decide (f.name = name)) ++ [{ name := name, size := size, mtime := now }]

/-- The `data` object of the step-1 placeholder upsert
(`generation_status: 'generating'`). -/
def generatingData (d : String) : CreateData :=
  { publish_date := d
    title := "Generating newsletter for " ++ d ++ "..."
    hook := ""
    sections := []
    conclusion := ""
    sources := []
    generation_status := some "generating" }

/-- The `data` object of the catch-block upsert
(`generation_status: 'failed'`, `error_message: error.message`). -/
def failedData (d : String) (msg : String) : CreateData :=
  { publish_date := d
    title := "Failed to generate newsletter for " ++ d
    hook := ""
    sections := []
    conclusion := ""
    sources := []
    generation_status := some "failed"
    error_message := some msg }

/-- The `data` object of the final success upsert. -/
def completeData (d : String) (c : Content) (durationSeconds : Nat) : CreateData :=
  { publish_date := d
    title := c.title
    hook := c.hook
    sections := c.sections
    conclusion := c.conclusion
    sources := c.sources
    audio_url := some (audioPublicUrl d)
    audio_duration_seconds := some durationSeconds
    generation_status := some "complete"
    error_message := none }

/-- Steps 4–5 of the pipeline once an audio file has been written: the final
`Newsletter.create` with the complete content, or — when that write throws —
the catch-block upsert of a failed record (the audio file stays on disk,
unreferenced). -/
def finishSave (env : GenEnv) (st1 : Store) (files1 : List AudioFile) (c : Content)
    (d : String) (now : Nat) : Store × List AudioFile × Except String Row :=
  match env.saveFail with
  | some m =>
      let out := Newsletter.create st1 now (failedData d m)
      (out.1, files1, Except.error m)
  | none =>
      let out := Newsletter.create st1 now (completeData d c env.durationSeconds)
      (out.1, files1, Except.ok out.2)

/-- `generateDailyNewsletter(date)`: upsert a `generating` placeholder, run
the content collaborator, run narration (`generateNewsletterAudio` swallows
a TTS failure by writing a placeholder WAV; only a failing placeholder write
propagates), then persist the final state; any thrown error is recorded as a
`failed` upsert and re-thrown to the caller. -/
def generateDailyNewsletter (env : GenEnv) (st : Store) (files : List AudioFile)
    (d : String) (now : Nat) : Store × List AudioFile × Except String Row :=
  let st1 := (Newsletter.create st now (generatingData d)).1
  match env.content with
  | Except.error m =>
      let out := Newsletter.create st1 now (failedData d m)
      (out.1, files, Except.error m)
  | Except.ok c =>
      if env.ttsOk then
        let files1 := writeAudio files (audioFileName d) (44 + env.pcmBytes) now
        finishSave env st1 files1 c d now
      else if env.placeholderOk then
        let files1 := writeAudio files (audioFileName d) placeholderBytes now
        finishSave env st1 files1 c d now
      else
        let out := Newsletter.create st1 now (failedData d env.placeholderErrMsg)
        (out.1, files, Except.error env.placeholderErrMsg)

/-- The error message with which `generateDailyNewsletter` reaches its catch
block, when it does: a content-generation failure, a narration failure whose
placeholder fallback write also fails, or a final database write failure.  A
narration failure whose placeholder write succeeds is swallowed inside
`generateNewsletterAudio` and never reaches the catch block. -/
def genFailureMsg (env : GenEnv) : Option String :=
  match env.content with
  | Except.error m => some m
  | Except.ok _ =>
      if env.ttsOk then env.saveFail
      else if env.placeholderOk then env.saveFail
      else some env.placeholderErrMsg

/-! ### HTTP layer: newsletter routes -/

/-- `^\d{4}-\d{2}-\d{2}$`. -/
def matchesDateFormat (s : String) : Bool :=
  match s.toList with
  | [a, b, c, d, e, f, g, h, i, j] =>
      a.isDigit && b.isDigit && c.isDigit && d.isDigit && e = '-' &&
      f.isDigit && g.isDigit && h = '-' && i.isDigit && j.isDigit
  | _ => false

/-- JS `parseInt` on an optional query/path string: skip leading whitespace,
accept an optional sign, read leading decimal digits; `NaN` (here `none`)
when no digit is read or the input is `undefined`. -/
def parseIntJS : Option String → Option Int
  | none => none
  | some s =>
    let cs := s.toList.dropWhile (fun c => c = ' ' || c = '\t' || c = '\n' || c = '\r')
    let signAndRest : Bool × List Char :=
      match cs with
      | '-' :: rest => (true, rest)
      | '+' :: rest => (false, rest)
      | _ => (false, cs)
    let digits := signAndRest.2.takeWhile Char.isDigit
    if digits.isEmpty then none
    else
      let n := digits.foldl (fun acc c => acc * 10 + (c.toNat - '0'.toNat)) 0
      some (if signAndRest.1 then -(n : Int) else (n : Int))

/-- Outcome of `POST /api/newsletter/generate`. -/
inductive GenerateOutcome where
  | unauthorized
  | missingDate
  | badFormat
  | created (r : Row)
  | serverError (msg : String)
deriving DecidableEq

/-- HTTP status of a `POST /generate` outcome (`res.json` without an explicit
status responds 200). -/
def generateStatus : GenerateOutcome → Nat
  | GenerateOutcome.unauthorized => 401
  | GenerateOutcome.missingDate => 400
  | GenerateOutcome.badFormat => 400
  | GenerateOutcome.created _ => 200
  | GenerateOutcome.serverError _ => 500

/-- The completed-newsletter payload of an outcome, when it carries one. -/
def createdRecord : GenerateOutcome → Option Row
  | GenerateOutcome.created r => some r
  | _ => none

/-- A `POST /generate` request: the `x-api-key` header and the `date` body
field (absent models `undefined`). -/
structure GenerateRequest where
  apiKey : Option String
  bodyDate : Option String
deriving DecidableEq

/-- The `POST /api/newsletter/generate` handler: key check, presence check
(`!date` is also true for the empty string), format check, then `await
generateDailyNewsletter(date)` — the handler waits for the whole pipeline
and only then responds with the resulting record (or 500 on a thrown
error). -/
def postGenerate (secret : String) (req : GenerateRequest) (env : GenEnv)
    (st : Store) (files : List AudioFile) (now : Nat) :
    Store × List AudioFile × GenerateOutcome :=
  if req.apiKey ≠ some secret then (st, files, GenerateOutcome.unauthorized)
  else
    match req.bodyDate with
    | none => (st, files, GenerateOutcome.missingDate)
    | some d =>
      if d = "" then (st, files, GenerateOutcome.missingDate)
      else if !matchesDateFormat d then (st, files, GenerateOutcome.badFormat)
      else
        let out := generateDailyNewsletter env st files d now
        match out.2.2 with
        | Except.ok r => (out.1, out.2.1, GenerateOutcome.created r)
        | Except.error m => (out.1, out.2.1, GenerateOutcome.serverError m)

/-- Insertion step for sorting rows by `updated_at` descending. -/
def insertUpdatedDesc (r : Row) : List Row → List Row
  | [] => [r]
  | x :: xs => if x.updated_at ≤ r.updated_at then r :: x :: xs else x :: insertUpdatedDesc r xs

/-- `Newsletter.getLatest()`: the first `complete` row by `updated_at`
descending. -/
def Newsletter.getLatest (st : Store) : Option Row :=
  ((st.rows.filter (fun r => decide (r.generation_status = "complete"))).foldr
      insertUpdatedDesc []).head?

/-- Outcome of a GET request below `/api/newsletter`. -/
inductive NewsGetOutcome where
  | invalidDate
  | dateNotFound (d : String)
  | newsletter (r : Row)
  | noneFound
  | badLimit
  | history (rows : List Row)
  | routerMiss
deriving DecidableEq

/-- HTTP status of a newsletter GET outcome. -/
def newsGetStatus : NewsGetOutcome → Nat
  | NewsGetOutcome.invalidDate => 400
  | NewsGetOutcome.dateNotFound _ => 404
  | NewsGetOutcome.newsletter _ => 200
  | NewsGetOutcome.noneFound => 404
  | NewsGetOutcome.badLimit => 400
  | NewsGetOutcome.history _ => 200
  | NewsGetOutcome.routerMiss => 404

/-- The `GET /api/newsletter/latest` handler. -/
def handleLatest (st : Store) (_seg : String) (_q : Option String) : NewsGetOutcome :=
  match Newsletter.getLatest st with
  | none => NewsGetOutcome.noneFound
  | some r => NewsGetOutcome.newsletter r

/-- The `GET /api/newsletter/:date` handler: format check, then lookup. -/
def handleByDate (st : Store) (seg : String) (_q : Option String) : NewsGetOutcome :=
  if !matchesDateFormat seg then NewsGetOutcome.invalidDate
  else
    match Newsletter.getByDate st seg with
    | none => NewsGetOutcome.dateNotFound seg
    | some r => NewsGetOutcome.newsletter r

/-- The `GET /api/newsletter/history` handler: `parseInt(req.query.limit) || 30`
(so `NaN` and `0` both fall back to the default), then the `[1, 365]` range
check, then the query. -/
def handleHistory (st : Store) (_seg : String) (q : Option String) : NewsGetOutcome :=
  let limit : Int :=
    match parseIntJS q with
    | none => 30
    | some n => if n = 0 then 30 else n
  if limit < 1 || limit > 365 then NewsGetOutcome.badLimit
  else NewsGetOutcome.history (Newsletter.getHistory st limit.toNat)

/-- An Express route pattern for one path segment below the router mount:
either a literal segment or a `:param` capture (which matches any segment). -/
inductive RoutePattern where
  | exactSeg (s : String)
  | paramSeg

/-- Whether a pattern matches a path segment. -/
def RoutePattern.matchesSeg : RoutePattern → String → Bool
  | RoutePattern.exactSeg s, seg => seg = s
  | RoutePattern.paramSeg, _ => true

/-- The GET routes of `src/routes/newsletter.js`, in registration order:
`/latest`, then `/:date`, then `/history`. -/
def newsletterGetRoutes :
    List (RoutePattern × (Store → String → Option String → NewsGetOutcome)) :=
  [(RoutePattern.exactSeg "latest", handleLatest),
   (RoutePattern.paramSeg, handleByDate),
   (RoutePattern.exactSeg "history", handleHistory)]

/-- Express dispatch for `GET /api/newsletter/<seg>`: the first route whose
pattern matches the segment handles the request. -/
def dispatchNewsletterGet (st : Store) (seg : String) (q : Option String) : NewsGetOutcome :=
  match newsletterGetRoutes.find? (fun route => route.1.matchesSeg seg) with
  | some route => route.2 st seg q
  | none => NewsGetOutcome.routerMiss

/-! ### HTTP layer: admin delete route -/

/-- The `getById` property of the exported `Newsletter` model object.  The
model defines no such method, so the property access yields `undefined`:
embedded as `none`. -/
def Newsletter.getByIdFn : Option (Store → Int → Option Row) := none

/-- The `deleteById` property of the exported `Newsletter` model object.
Like `getById`, no such method is defined: the property is `undefined`. -/
def Newsletter.deleteByIdFn : Option (Store → Int → Store) := none

/-- Outcome of `DELETE /api/newsletter/:id`. -/
inductive DeleteOutcome where
  | unauthorized
  | invalidId
  | notFound
  | deleted (id : Nat) (title : String) (d : String)
  | serverError (msg : String)
deriving DecidableEq

/-- HTTP status of a delete outcome. -/
def deleteStatus : DeleteOutcome → Nat
  | DeleteOutcome.unauthorized => 401
  | DeleteOutcome.invalidId => 400
  | DeleteOutcome.notFound => 404
  | DeleteOutcome.deleted _ _ _ => 200
  | DeleteOutcome.serverError _ => 500

/-- The `DELETE /api/newsletter/:id` handler: key check, `parseInt` with
`isNaN` check, then `Newsletter.getById(id)` — calling a property that is
`undefined` throws a `TypeError`, which the handler's catch turns into a
500 response. -/
def handleDeleteById (secret : String) (apiKey : Option String) (idParam : String)
    (st : Store) : Store × DeleteOutcome :=
  if apiKey ≠ some secret then (st, DeleteOutcome.unauthorized)
  else
    match parseIntJS (some idParam) with
    | none => (st, DeleteOutcome.invalidId)
    | some id =>
      match Newsletter.getByIdFn with
      | none => (st, DeleteOutcome.serverError "Newsletter.getById is not a function")
      | some getById =>
        match getById st id with
        | none => (st, DeleteOutcome.notFound)
        | some existing =>
          match Newsletter.deleteByIdFn with
          | none => (st, DeleteOutcome.serverError "Newsletter.deleteById is not a function")
          | some deleteById =>
            (deleteById st id,
             DeleteOutcome.deleted existing.id existing.title existing.publish_date)

/-! ### Auxiliary predicates and concrete fixtures -/

/-- The structural invariant of the table: the `UNIQUE` constraint on
`publish_date` — no two rows share a key. -/
def Store.wf (st : Store) : Prop :=
  st.rows.Pairwise (fun a b => a.publish_date ≠ b.publish_date)

/-- Number of rows stored under a given `publish_date`. -/
def countFor (st : Store) (key : String) : Nat :=
  (st.rows.filter (fun r => decide (r.publish_date = key))).length

/-- A concrete structured document, used by the concrete scenarios below. -/
def sampleContent : Content :=
  { title := "Markets Rally on Rate Cut Hopes"
    hook := "Stocks surged today."
    sections := [{ heading := "Market Overview", content := "A broad up day." }]
    conclusion := "Stay tuned."
    sources := [{ url := "https://example.com/a", title := "Example" }] }

/-- A run in which every collaborator succeeds. -/
def envAllOk : GenEnv :=
  { content := Except.ok sampleContent
    ttsOk := true
    ttsErrMsg := ""
    placeholderOk := true
    placeholderErrMsg := ""
    saveFail := none
    pcmBytes := 1000
    durationSeconds := 60 }

/-- A run in which the narration collaborator fails but the placeholder
write succeeds — everything else succeeds. -/
def envTtsFails : GenEnv :=
  { content := Except.ok sampleContent
    ttsOk := false
    ttsErrMsg := "TTS quota exceeded"
    placeholderOk := true
    placeholderErrMsg := ""
    saveFail := none
    pcmBytes := 1000
    durationSeconds := 60 }

/-- A run in which the content-generation collaborator throws. -/
def envContentFails : GenEnv :=
  { content := Except.error "Newsletter generation failed: quota"
    ttsOk := true
    ttsErrMsg := ""
    placeholderOk := true
    placeholderErrMsg := ""
    saveFail := none
    pcmBytes := 1000
    durationSeconds := 60 }

/-- The empty store, as created by the migration. -/
def emptyStore : Store := { rows := [], nextId := 1 }

/-- A concrete invocation instant: 2025-10-01T00:00:00Z in epoch ms. -/
def sampleNow : Nat := 1759276800000

/-- A concrete pre-existing complete row for 2025-06-01. -/
def sampleOldRow : Row :=
  { id := 1
    publish_date := "2025-06-01"
    title := "Old title"
    hook := "old hook"
    sections := []
    conclusion := "old conclusion"
    sources := []
    audio_url := some (audioPublicUrl "2025-06-01")
    audio_duration_seconds := some 60
    generation_status := "complete"
    error_message := none
    created_at := 5
    updated_at := 5 }

/-- A store holding exactly `sampleOldRow`. -/
def oneRowStore : Store := { rows := [sampleOldRow], nextId := 2 }

/-- A concrete upsert payload targeting `sampleOldRow`'s date. -/
def sampleUpdate : CreateData :=
  { publish_date := "2025-06-01"
    title := "New title"
    hook := "new hook"
    sections := [{ heading := "Overview", content := "fresh" }]
    conclusion := "new conclusion"
    sources := [{ url := "https://example.com/b", title := "B" }]
    audio_url := some (audioPublicUrl "2025-06-01")
    audio_duration_seconds := some 61
    generation_status := some "complete"
    error_message := none }

/-- An audio artifact whose `mtime` equals the audio cutoff for `sampleNow`
exactly. -/
def cutoffFile : AudioFile :=
  { name := "daily-pulse-2025-09-17.wav", size := 100, mtime := audioCutoffMs sampleNow }

/-- A directory holding exactly `cutoffFile`. -/
def cutoffFS : FS := { dirExists := true, files := [cutoffFile] }

/-- A non-`.wav` entry sitting in the audio directory. -/
def strayFile : AudioFile := { name := "notes.txt", size := 5, mtime := 0 }

/-- A directory with one stale `.wav` artifact and one stray non-`.wav`
file, both far older than the cutoff at `sampleNow`. -/
def mixedFS : FS :=
  { dirExists := true
    files := [{ name := "daily-pulse-2024-01-01.wav", size := 700, mtime := 1704067200000 },
              strayFile] }

/-! ### Helper lemmas: lists -/

theorem filter_nil_of_find?_none {α} (p : α → Bool) :
    ∀ l : List α, l.find? p = none → l.filter p = [] := by
  intro l
  induction l with
  | nil => intro _; rfl
  | cons a l ih =>
    intro h
    cases hpa : p a with
    | true =>
      rw [List.find?_cons_of_pos _ hpa] at h
      exact absurd h (by simp)
    | false =>
      rw [List.find?_cons_of_neg _ (by simp [hpa])] at h
      simp [List.filter_cons, hpa, ih h]

theorem find?_append_none {α} (p : α → Bool) (r : α) (hr : p r = true) :
    ∀ l : List α, l.find? p = none → (l ++ [r]).find? p = some r := by
  intro l
  induction l with
  | nil =>
    intro _
    rw [List.nil_append]
    exact List.find?_cons_of_pos _ hr
  | cons a l ih =>
    intro h
    cases hpa : p a with
    | true =>
      rw [List.find?_cons_of_pos _ hpa] at h
      exact absurd h (by simp)
    | false =>
      rw [List.find?_cons_of_neg _ (by simp [hpa])] at h
      rw [List.cons_append, List.find?_cons_of_neg _ (by simp [hpa])]
      exact ih h

/-! ### Helper lemmas: the upsert -/

theorem updateRow_publish_date (old : Row) (d : CreateData) (now : Nat) :
    (updateRow old d now).publish_date = old.publish_date := rfl

/-- Replacing the matching rows by a row with the same key leaves every
row's key unchanged, so a key-based `find?` still succeeds at the same spot
and returns the replacement. -/
theorem find?_map_replace (key : String) (r : Row) (hr : r.publish_date = key) :
    ∀ l : List Row,
      (l.find? (fun x => decide (x.publish_date = key))).isSome →
      (l.map (fun x => if x.publish_date = key then r else x)).find?
          (fun x => decide (x.publish_date = key)) = some r := by
  intro l
  induction l with
  | nil => intro h; simp [List.find?] at h
  | cons a l ih =>
    intro h
    by_cases ha : a.publish_date = key
    · simp only [List.map_cons, if_pos ha]
      exact List.find?_cons_of_pos _ (by simp [hr])
    · simp only [List.map_cons, if_neg ha]
      rw [List.find?_cons_of_neg _ (by simp [ha])]
      apply ih
      rwa [List.find?_cons_of_neg _ (by simp [ha])] at h

/-- The replacement map preserves the number of rows stored under the key. -/
theorem filter_length_map_replace (key : String) (r : Row) (hr : r.publish_date = key) :
    ∀ l : List Row,
      ((l.map (fun x => if x.publish_date = key then r else x)).filter
          (fun x => decide (x.publish_date = key))).length
        = (l.filter (fun x => decide (x.publish_date = key))).length := by
  intro l
  induction l with
  | nil => rfl
  | cons a l ih =>
    by_cases ha : a.publish_date = key
    · simp only [List.map_cons, if_pos ha]
      rw [List.filter_cons, List.filter_cons]
      simp [hr, ha, ih]
    · simp only [List.map_cons, if_neg ha]
      rw [List.filter_cons, List.filter_cons]
      simp [ha, ih]

/-- The replacement map leaves the key sequence of the table unchanged. -/
theorem map_publish_date_map_replace (key : String) (r : Row) (hr : r.publish_date = key) :
    ∀ l : List Row,
      (l.map (fun x => if x.publish_date = key then r else x)).map (fun x => x.publish_date)
        = l.map (fun x => x.publish_date) := by
  intro l
  induction l with
  | nil => rfl
  | cons a l ih =>
    by_cases ha : a.publish_date = key
    · simp only [List.map_cons, if_pos ha, ih]
      rw [hr, ha]
    · simp only [List.map_cons, if_neg ha, ih]

/-- In a table satisfying the uniqueness constraint, a key that resolves
occupies exactly one row. -/
theorem filter_length_one_of_find?_some (key : String) :
    ∀ l : List Row,
      l.Pairwise (fun a b => a.publish_date ≠ b.publish_date) →
      (l.find? (fun x => decide (x.publish_date = key))).isSome →
      (l.filter (fun x => decide (x.publish_date = key))).length = 1 := by
  intro l
  induction l with
  | nil => intro _ h; simp [List.find?] at h
  | cons a l ih =>
    intro hwf h
    obtain ⟨hrel, htail⟩ := List.pairwise_cons.mp hwf
    by_cases ha : a.publish_date = key
    · rw [List.filter_cons, if_pos (by simp [ha])]
      have hnil : l.filter (fun x => decide (x.publish_date = key)) = [] := by
        rw [List.filter_eq_nil_iff]
        intro b hb
        have := hrel b hb
        simp only [ha] at this
        simp [Ne.symm this]
      simp [hnil]
    · rw [List.filter_cons, if_neg (by simp [ha])]
      apply ih htail
      rwa [List.find?_cons_of_neg _ (by simp [ha])] at h

/-- The row returned by `Newsletter.create` (`RETURNING *`) carries the
payload's content fields, after the JS falsy coercions, and `updated_at` is
the write time — in both the insert and the conflict-update arm. -/
theorem create_snd_fields (st : Store) (now : Nat) (d : CreateData) :
    (Newsletter.create st now d).2.publish_date = d.publish_date ∧
    (Newsletter.create st now d).2.title = d.title ∧
    (Newsletter.create st now d).2.hook = d.hook ∧
    (Newsletter.create st now d).2.sections = d.sections ∧
    (Newsletter.create st now d).2.conclusion = d.conclusion ∧
    (Newsletter.create st now d).2.sources = d.sources ∧
    (Newsletter.create st now d).2.audio_url = normOpt d.audio_url ∧
    (Newsletter.create st now d).2.audio_duration_seconds = normNat d.audio_duration_seconds ∧
    (Newsletter.create st now d).2.generation_status = normStr d.generation_status "pending" ∧
    (Newsletter.create st now d).2.error_message = normOpt d.error_message ∧
    (Newsletter.create st now d).2.updated_at = now := by
  unfold Newsletter.create
  split
  next old hfind =>
    have hkey : old.publish_date = d.publish_date := by
      have := List.find?_some hfind
      simpa using this
    simp [updateRow, hkey]
  next hfind =>
    simp [freshRow]

/-- After `Newsletter.create`, looking the key up returns exactly the
`RETURNING *` row. -/
theorem getByDate_create_self (st : Store) (now : Nat) (d : CreateData) :
    Newsletter.getByDate (Newsletter.create st now d).1 d.publish_date
      = some (Newsletter.create st now d).2 := by
  unfold Newsletter.getByDate Newsletter.create
  split
  next old hfind =>
    have hkey : old.publish_date = d.publish_date := by
      have := List.find?_some hfind
      simpa using this
    exact find?_map_replace d.publish_date _
      (by rw [updateRow_publish_date, hkey]) st.rows (by simp [hfind])
  next hfind =>
    exact find?_append_none _ _ (by simp [freshRow]) st.rows hfind

/-- In a store satisfying the uniqueness constraint, `Newsletter.create`
leaves exactly one row under the written key. -/
theorem countFor_create (st : Store) (now : Nat) (d : CreateData) (hwf : st.wf) :
    countFor (Newsletter.create st now d).1 d.publish_date = 1 := by
  unfold countFor Newsletter.create
  split
  next old hfind =>
    have hkey : old.publish_date = d.publish_date := by
      have := List.find?_some hfind
      simpa using this
    have := filter_length_map_replace d.publish_date (updateRow old d now)
      (by rw [updateRow_publish_date, hkey]) st.rows
    simp only at this ⊢
    rw [this]
    exact filter_length_one_of_find?_some _ st.rows hwf (by simp [hfind])
  next hfind =>
    simp only
    rw [List.filter_append, filter_nil_of_find?_none _ st.rows hfind]
    simp [freshRow]

/-- `Newsletter.create` preserves the uniqueness constraint. -/
theorem wf_create (st : Store) (now : Nat) (d : CreateData) (hwf : st.wf) :
    (Newsletter.create st now d).1.wf := by
  unfold Newsletter.create
  split
  next old hfind =>
    have hkey : old.publish_date = d.publish_date := by
      have := List.find?_some hfind
      simpa using this
    have hdate : ∀ x : Row,
        (if x.publish_date = d.publish_date then updateRow old d now else x).publish_date
          = x.publish_date := by
      intro x
      by_cases hx : x.publish_date = d.publish_date
      · rw [if_pos hx, updateRow_publish_date, hkey, hx]
      · rw [if_neg hx]
    unfold Store.wf at hwf ⊢
    refine hwf.map _ (fun a b hab => ?_)
    rw [hdate a, hdate b]
    exact hab
  next hfind =>
    unfold Store.wf at hwf ⊢
    rw [List.pairwise_append]
    refine ⟨hwf, List.pairwise_singleton _ _, fun a ha b hb => ?_⟩
    have hb' : b = freshRow st.nextId d now := by simpa using hb
    have := List.find?_eq_none.mp hfind a ha
    simp only [decide_eq_true_eq] at this
    rw [hb']
    simpa [freshRow] using this

/-! ### Helper lemmas: the orchestrator -/

/-- Every run of the pipeline is the step-1 placeholder upsert followed by
exactly one more upsert keyed by the same date (complete or failed). -/
theorem generate_store_shape (env : GenEnv) (st : Store) (files : List AudioFile)
    (d : String) (now : Nat) :
    ∃ dd : CreateData, dd.publish_date = d ∧
      (generateDailyNewsletter env st files d now).1
        = (Newsletter.create (Newsletter.create st now (generatingData d)).1 now dd).1 := by
  unfold generateDailyNewsletter
  cases hc : env.content with
  | error m => exact ⟨failedData d m, rfl, rfl⟩
  | ok c =>
    by_cases htts : env.ttsOk = true
    · simp only [htts, if_true]
      unfold finishSave
      cases hs : env.saveFail with
      | some m => exact ⟨failedData d m, rfl, rfl⟩
      | none => exact ⟨completeData d c env.durationSeconds, rfl, rfl⟩
    · simp only [Bool.not_eq_true] at htts
      simp only [htts, Bool.false_eq_true, if_false]
      by_cases hph : env.placeholderOk = true
      · simp only [hph, if_true]
        unfold finishSave
        cases hs : env.saveFail with
        | some m => exact ⟨failedData d m, rfl, rfl⟩
        | none => exact ⟨completeData d c env.durationSeconds, rfl, rfl⟩
      · simp only [Bool.not_eq_true] at hph
        simp only [hph, Bool.false_eq_true, if_false]
        exact ⟨failedData d env.placeholderErrMsg, rfl, rfl⟩

/-- The pipeline preserves the uniqueness constraint. -/
theorem generate_wf (env : GenEnv) (st : Store) (files : List AudioFile)
    (d : String) (now : Nat) (hwf : st.wf) :
    (generateDailyNewsletter env st files d now).1.wf := by
  obtain ⟨dd, _, heq⟩ := generate_store_shape env st files d now
  rw [heq]
  exact wf_create _ _ _ (wf_create _ _ _ hwf)

/-- After one pipeline run on a store satisfying the uniqueness constraint,
exactly one row is stored under the run's date. -/
theorem generate_countFor (env : GenEnv) (st : Store) (files : List AudioFile)
    (d : String) (now : Nat) (hwf : st.wf) :
    countFor (generateDailyNewsletter env st files d now).1 d = 1 := by
  obtain ⟨dd, hdd, heq⟩ := generate_store_shape env st files d now
  rw [heq, ← hdd]
  exact countFor_create _ _ _ (wf_create _ _ _ hwf)

/-! ### Helper lemmas: cleanup -/

theorem deleteOldWav_fst (cutoff : Nat) :
    ∀ l : List AudioFile,
      (deleteOldWav cutoff l).1
        = l.filter (fun f => !(strEndsWith f.name ".wav" && decide (f.mtime < cutoff))) := by
  intro l
  induction l with
  | nil => rfl
  | cons f rest ih =>
    rw [List.filter_cons]
    cases hf : (strEndsWith f.name ".wav" && decide (f.mtime < cutoff)) with
    | true => simp [deleteOldWav, hf, ih]
    | false => simp [deleteOldWav, hf, ih]

theorem deleteOldWav_snd (cutoff : Nat) :
    ∀ l : List AudioFile,
      (deleteOldWav cutoff l).2
        = (l.filter (fun f => strEndsWith f.name ".wav" && decide (f.mtime < cutoff))).length := by
  intro l
  induction l with
  | nil => rfl
  | cons f rest ih =>
    rw [List.filter_cons]
    cases hf : (strEndsWith f.name ".wav" && decide (f.mtime < cutoff)) with
    | true => simp [deleteOldWav, hf, ih]
    | false => simp [deleteOldWav, hf, ih]

theorem statsLoop_toDelete (cutoff : Nat) :
    ∀ l : List AudioFile,
      (statsLoop cutoff l).toDelete
        = (l.filter (fun f => decide (f.mtime < cutoff))).length := by
  intro l
  induction l with
  | nil => rfl
  | cons f rest ih =>
    rw [List.filter_cons]
    by_cases hf : f.mtime < cutoff
    · simp [statsLoop, hf, ih]
    · simp [statsLoop, hf, ih]

theorem filter_wav_then_old (cutoff : Nat) :
    ∀ l : List AudioFile,
      ((l.filter (fun f => strEndsWith f.name ".wav")).filter
          (fun f => decide (f.mtime < cutoff)))
        = l.filter (fun f => strEndsWith f.name ".wav" && decide (f.mtime < cutoff)) := by
  intro l
  induction l with
  | nil => rfl
  | cons f rest ih =>
    cases hw : strEndsWith f.name ".wav" with
    | true =>
      by_cases hm : f.mtime < cutoff
      · simp [List.filter_cons, hw, hm, ih]
      · simp [List.filter_cons, hw, hm, ih]
    | false => simp [List.filter_cons, hw, ih]

theorem insertAsc_length (r : Row) :
    ∀ l : List Row, (insertAsc r l).length = l.length + 1 := by
  intro l
  induction l with
  | nil => rfl
  | cons x xs ih =>
    unfold insertAsc
    by_cases hx : r.publish_date ≤ x.publish_date
    · simp [hx]
    · simp [hx, ih]

theorem sortByDateAsc_length (l : List Row) : (sortByDateAsc l).length = l.length := by
  induction l with
  | nil => rfl
  | cons x xs ih =>
    unfold sortByDateAsc at ih ⊢
    rw [List.foldr_cons, insertAsc_length, ih, List.length_cons]

theorem insertAsc_mem (x r : Row) :
    ∀ l : List Row, x ∈ insertAsc r l ↔ x = r ∨ x ∈ l := by
  intro l
  induction l with
  | nil => simp [insertAsc]
  | cons y ys ih =>
    unfold insertAsc
    by_cases hy : r.publish_date ≤ y.publish_date
    · simp [hy]
    · simp only [hy, if_false, List.mem_cons, ih]
      tauto

theorem sortByDateAsc_mem (x : Row) :
    ∀ l : List Row, x ∈ sortByDateAsc l ↔ x ∈ l := by
  intro l
  induction l with
  | nil => simp [sortByDateAsc]
  | cons y ys ih =>
    unfold sortByDateAsc at ih ⊢
    rw [List.foldr_cons, insertAsc_mem]
    simp [ih]

theorem filter_after_keep {α} (p : α → Bool) :
    ∀ l : List α, (l.filter (fun a => !p a)).filter p = [] := by
  intro l
  induction l with
  | nil => rfl
  | cons a l ih => cases hp : p a <;> simp [List.filter_cons, hp, ih]

theorem audioPublicUrl_ne_empty (d : String) : audioPublicUrl d ≠ "" := by
  intro h
  have hlen : (audioPublicUrl d).length = 0 := by rw [h]; rfl
  rw [audioPublicUrl, configPublicUrl, audioFileName] at hlen
  simp [String.length_append] at hlen
  exact absurd hlen.1 (by decide)

/-- A run that reaches the catch block produces the thrown error as its
result, and its final store state is the step-1 placeholder followed by the
catch-block `failed` upsert. -/
theorem generate_error_shape (env : GenEnv) (st : Store) (files : List AudioFile)
    (d : String) (now : Nat) (m : String) (hm : genFailureMsg env = some m) :
    (generateDailyNewsletter env st files d now).2.2 = Except.error m ∧
    (generateDailyNewsletter env st files d now).1
      = (Newsletter.create (Newsletter.create st now (generatingData d)).1 now
          (failedData d m)).1 := by
  unfold genFailureMsg at hm
  unfold generateDailyNewsletter
  cases hc : env.content with
  | error m0 =>
    rw [hc] at hm
    injection hm with hm0
    subst hm0
    exact ⟨rfl, rfl⟩
  | ok c =>
    rw [hc] at hm
    by_cases htts : env.ttsOk = true
    · simp only [htts, if_true] at hm ⊢
      unfold finishSave
      cases hs : env.saveFail with
      | some m0 =>
        rw [hs] at hm
        injection hm with hm0
        subst hm0
        exact ⟨rfl, rfl⟩
      | none => rw [hs] at hm; cases hm
    · simp only [Bool.not_eq_true] at htts
      simp only [htts, Bool.false_eq_true, if_false] at hm ⊢
      by_cases hph : env.placeholderOk = true
      · simp only [hph, if_true] at hm ⊢
        unfold finishSave
        cases hs : env.saveFail with
        | some m0 =>
          rw [hs] at hm
          injection hm with hm0
          subst hm0
          exact ⟨rfl, rfl⟩
        | none => rw [hs] at hm; cases hm
      · simp only [Bool.not_eq_true] at hph
        simp only [hph, Bool.false_eq_true, if_false] at hm ⊢
        injection hm with hm0
        subst hm0
        exact ⟨rfl, rfl⟩

/-- A run that never reaches the catch block has a successful content call,
a successful audio write (primary or placeholder), a successful final save,
and returns the complete `RETURNING *` row; the audio directory gains the
deterministic file for the date, stamped at the write instant. -/
theorem generate_success_shape (env : GenEnv) (st : Store) (files : List AudioFile)
    (d : String) (now : Nat) (hm : genFailureMsg env = none) :
    ∃ c, env.content = Except.ok c ∧ env.saveFail = none ∧
      (env.ttsOk = true ∨ env.placeholderOk = true) ∧
      generateDailyNewsletter env st files d now
        = ((Newsletter.create (Newsletter.create st now (generatingData d)).1 now
              (completeData d c env.durationSeconds)).1,
           writeAudio files (audioFileName d)
             (if env.ttsOk = true then 44 + env.pcmBytes else placeholderBytes) now,
           Except.ok (Newsletter.create (Newsletter.create st now (generatingData d)).1 now
              (completeData d c env.durationSeconds)).2) := by
  unfold genFailureMsg at hm
  unfold generateDailyNewsletter
  cases hc : env.content with
  | error m0 => rw [hc] at hm; cases hm
  | ok c =>
    rw [hc] at hm
    refine ⟨c, rfl, ?_⟩
    by_cases htts : env.ttsOk = true
    · simp only [htts, if_true] at hm ⊢
      unfold finishSave
      rw [hm]
      exact ⟨rfl, Or.inl (by simp), rfl⟩
    · simp only [Bool.not_eq_true] at htts
      simp only [htts, Bool.false_eq_true, if_false] at hm ⊢
      by_cases hph : env.placeholderOk = true
      · simp only [hph, if_true] at hm ⊢
        unfold finishSave
        rw [hm]
        exact ⟨rfl, Or.inr (by simp), rfl⟩
      · simp only [Bool.not_eq_true] at hph
        simp only [hph, Bool.false_eq_true, if_false] at hm
        cases hm

/-- The lookup state after the catch-block upsert: status `failed`, the
thrown message as `error_message` (when non-empty), no referenced audio. -/
theorem getByDate_after_failed_create (st1 : Store) (d m : String) (now : Nat)
    (hne : m ≠ "") :
    (Newsletter.getByDate (Newsletter.create st1 now (failedData d m)).1 d).map
        (fun r => r.generation_status) = some "failed" ∧
    (Newsletter.getByDate (Newsletter.create st1 now (failedData d m)).1 d).map
        (fun r => r.error_message) = some (some m) ∧
    (Newsletter.getByDate (Newsletter.create st1 now (failedData d m)).1 d).map
        (fun r => r.audio_url) = some none := by
  have h := getByDate_create_self st1 now (failedData d m)
  rw [show (failedData d m).publish_date = d from rfl] at h
  rw [h]
  obtain ⟨_, _, _, _, _, _, hau, _, hstat, herr, _⟩ :=
    create_snd_fields st1 now (failedData d m)
  have hs' : normStr (failedData d m).generation_status "pending" = "failed" := rfl
  have he' : normOpt (failedData d m).error_message = some m := by
    show (if m = "" then none else some m) = some m
    rw [if_neg hne]
  have ha' : normOpt (failedData d m).audio_url = none := rfl
  exact ⟨congrArg some (hstat.trans hs'), congrArg some (herr.trans he'),
         congrArg some (hau.trans ha')⟩

/-! ### Unfolding equations for the cleanup service -/

theorem runCleanup_results_audio (fs : FS) (st : Store) (now : Nat) :
    (runCleanup fs st now).results.audioFilesDeleted = (cleanupAudioFiles fs now).2 := rfl

theorem runCleanup_results_db (fs : FS) (st : Store) (now : Nat) :
    (runCleanup fs st now).results.newslettersDeleted = (cleanupNewsletterRecords st now).2 := rfl

theorem runCleanup_fsAfter (fs : FS) (st : Store) (now : Nat) :
    (runCleanup fs st now).fsAfter = (cleanupAudioFiles fs now).1 := rfl

theorem runCleanup_stAfter (fs : FS) (st : Store) (now : Nat) :
    (runCleanup fs st now).stAfter = (cleanupNewsletterRecords st now).1 := rfl

theorem runCleanup_results_eq (fs : FS) (st : Store) (now : Nat) :
    (runCleanup fs st now).results
      = { audioFilesDeleted := (cleanupAudioFiles fs now).2
          audioErrors := 0
          newslettersDeleted := (cleanupNewsletterRecords st now).2
          databaseErrors := 0 } := rfl

theorem cleanupAudioFiles_eq (fs : FS) (now : Nat) :
    cleanupAudioFiles fs now
      = if fs.dirExists
        then ({ fs with files := (deleteOldWav (audioCutoffMs now) fs.files).1 },
              (deleteOldWav (audioCutoffMs now) fs.files).2)
        else (fs, 0) := by
  unfold cleanupAudioFiles
  cases fs.dirExists <;> rfl

theorem cleanupNewsletterRecords_eq (st : Store) (now : Nat) :
    cleanupNewsletterRecords st now
      = if (Newsletter.getOlderThan st (toISODate (newsletterCutoffMs now))).length = 0
        then (st, 0)
        else ((Newsletter.deleteOlderThan st (toISODate (newsletterCutoffMs now))).1,
              (Newsletter.deleteOlderThan st (toISODate (newsletterCutoffMs now))).2) := by
  unfold cleanupNewsletterRecords
  by_cases h0 :
      (Newsletter.getOlderThan st (toISODate (newsletterCutoffMs now))).length = 0
  · rw [if_pos h0]
  · rw [if_neg h0]

theorem cleanupAudioFiles_dir_true (fs : FS) (now : Nat) (hdir : fs.dirExists = true) :
    cleanupAudioFiles fs now
      = ({ fs with files := (deleteOldWav (audioCutoffMs now) fs.files).1 },
         (deleteOldWav (audioCutoffMs now) fs.files).2) := by
  rw [cleanupAudioFiles_eq, if_pos hdir]

theorem cleanupAudioFiles_dir_false (fs : FS) (now : Nat) (hdir : fs.dirExists = false) :
    cleanupAudioFiles fs now = (fs, 0) := by
  rw [cleanupAudioFiles_eq, if_neg (by simp [hdir])]

theorem cleanupAudioFiles_mk_true (l : List AudioFile) (now : Nat) :
    cleanupAudioFiles { dirExists := true, files := l } now
      = ({ dirExists := true, files := (deleteOldWav (audioCutoffMs now) l).1 },
         (deleteOldWav (audioCutoffMs now) l).2) := rfl

theorem cleanupAudioFiles_mk_false (l : List AudioFile) (now : Nat) :
    cleanupAudioFiles { dirExists := false, files := l } now
      = ({ dirExists := false, files := l }, 0) := rfl

theorem stats_audioFiles_eq (fs : FS) (st : Store) (now : Nat) :
    (getCleanupStats fs st now).audioFiles
      = if fs.dirExists
        then statsLoop (audioCutoffMs now) (fs.files.filter (fun f => strEndsWith f.name ".wav"))
        else { total := 0, toDelete := 0, totalSize := 0, toDeleteSize := 0 } := rfl

theorem stats_newslettersToDelete_eq (fs : FS) (st : Store) (now : Nat) :
    (getCleanupStats fs st now).newslettersToDelete
      = (Newsletter.getOlderThan st (toISODate (newsletterCutoffMs now))).length := rfl

/-- The predicate deciding a row's fate in both `getOlderThan` and
`deleteOlderThan`. -/
def staleRow (cutoff : String) : Row → Bool :=
  fun r => decide (r.publish_date < cutoff)

theorem getOlderThan_eq (st : Store) (cutoff : String) :
    Newsletter.getOlderThan st cutoff = sortByDateAsc (st.rows.filter (staleRow cutoff)) := rfl

theorem deleteOlderThan_eq (st : Store) (cutoff : String) :
    Newsletter.deleteOlderThan st cutoff
      = ({ st with rows := st.rows.filter (fun r => !staleRow cutoff r) },
         (st.rows.filter (staleRow cutoff)).length) := rfl

/-- The predicate deciding an artifact's fate in the audio pass. -/
def staleWav (cutoff : Nat) : AudioFile → Bool :=
  fun f => strEndsWith f.name ".wav" && decide (f.mtime < cutoff)

theorem deleteOldWav_fst' (cutoff : Nat) (l : List AudioFile) :
    (deleteOldWav cutoff l).1 = l.filter (fun f => !staleWav cutoff f) :=
  deleteOldWav_fst cutoff l

theorem deleteOldWav_snd' (cutoff : Nat) (l : List AudioFile) :
    (deleteOldWav cutoff l).2 = (l.filter (staleWav cutoff)).length :=
  deleteOldWav_snd cutoff l

/-! ### Claim theorems -/

/-- C4: for every store and filesystem state, with no data changes and the
same now between the two calls, the `toDelete` counts of `getCleanupStats`
exactly equal the files and records a subsequent `runCleanup` deletes; and
`getOlderThan`/`deleteOlderThan` select exactly the rows with `publish_date`
strictly before the cutoff, with `deleteOlderThan` returning the count it
deleted. -/
theorem stats_preview_matches_cleanup (fs : FS) (st : Store) (now : Nat) :
    (getCleanupStats fs st now).audioFiles.toDelete
        = (runCleanup fs st now).results.audioFilesDeleted ∧
    (getCleanupStats fs st now).newslettersToDelete
        = (runCleanup fs st now).results.newslettersDeleted ∧
    (∀ cutoff : String,
      (Newsletter.deleteOlderThan st cutoff).2
          = (Newsletter.getOlderThan st cutoff).length ∧
      (∀ r : Row, r ∈ Newsletter.getOlderThan st cutoff
          ↔ r ∈ st.rows ∧ r.publish_date < cutoff) ∧
      (∀ r : Row, r ∈ (Newsletter.deleteOlderThan st cutoff).1.rows
          ↔ r ∈ st.rows ∧ ¬ r.publish_date < cutoff)) := by
  refine ⟨?_, ?_, fun cutoff => ⟨?_, ?_, ?_⟩⟩
  · rw [runCleanup_results_audio, cleanupAudioFiles_eq]
    cases hd : fs.dirExists with
    | true =>
      rw [if_pos rfl, stats_audioFiles_eq, if_pos hd, statsLoop_toDelete,
          filter_wav_then_old, deleteOldWav_snd]
    | false =>
      rw [if_neg (by simp), stats_audioFiles_eq, if_neg (by simp [hd])]
  · rw [runCleanup_results_db, cleanupNewsletterRecords_eq, stats_newslettersToDelete_eq]
    by_cases h0 :
        (Newsletter.getOlderThan st (toISODate (newsletterCutoffMs now))).length = 0
    · rw [if_pos h0, h0]
    · rw [if_neg h0, getOlderThan_eq, deleteOlderThan_eq, sortByDateAsc_length]
  · rw [getOlderThan_eq, deleteOlderThan_eq, sortByDateAsc_length]
  · intro r
    rw [getOlderThan_eq, sortByDateAsc_mem, List.mem_filter]
    simp [staleRow]
  · intro r
    rw [deleteOlderThan_eq, List.mem_filter]
    simp [staleRow]

/-- C9: running `runCleanup` twice in a row with no new data and the same
now yields zero additional deletions on the second call: zero audio files
and zero newsletter records deleted. -/
theorem cleanup_idempotent (fs : FS) (st : Store) (now : Nat) :
    (runCleanup (runCleanup fs st now).fsAfter (runCleanup fs st now).stAfter
        now).results.audioFilesDeleted = 0 ∧
    (runCleanup (runCleanup fs st now).fsAfter (runCleanup fs st now).stAfter
        now).results.newslettersDeleted = 0 := by
  constructor
  · rw [runCleanup_results_audio, runCleanup_fsAfter, cleanupAudioFiles_eq fs now]
    cases hd : fs.dirExists with
    | true =>
      rw [if_pos rfl, cleanupAudioFiles_eq]
      rw [if_pos rfl, deleteOldWav_snd', deleteOldWav_fst',
          filter_after_keep (staleWav (audioCutoffMs now)) fs.files]
      rfl
    | false =>
      rw [if_neg (by simp), cleanupAudioFiles_eq, if_neg (by simp [hd])]
  · rw [runCleanup_results_db, runCleanup_stAfter, cleanupNewsletterRecords_eq st now]
    by_cases h0 :
        (Newsletter.getOlderThan st (toISODate (newsletterCutoffMs now))).length = 0
    · rw [if_pos h0, cleanupNewsletterRecords_eq, if_pos h0]
    · rw [if_neg h0, cleanupNewsletterRecords_eq, deleteOlderThan_eq]
      have hempty :
          Newsletter.getOlderThan
              { st with rows := st.rows.filter (fun r => !staleRow (toISODate (newsletterCutoffMs now)) r) }
              (toISODate (newsletterCutoffMs now)) = [] := by
        rw [getOlderThan_eq]
        show sortByDateAsc
            ((st.rows.filter (fun r => !staleRow (toISODate (newsletterCutoffMs now)) r)).filter
              (staleRow (toISODate (newsletterCutoffMs now)))) = []
        rw [filter_after_keep (staleRow (toISODate (newsletterCutoffMs now))) st.rows]
        rfl
      rw [if_pos (by rw [hempty]; rfl)]

/-- C6: `runCleanup` deletes a `.wav` artifact if and only if its
`lastModified` timestamp is strictly earlier than the audio cutoff
(invocation time minus 14 days); an artifact stamped exactly at the cutoff
survives, one stamped any amount earlier is deleted. -/
theorem audio_delete_iff_strictly_older (fs : FS) (st : Store) (now : Nat)
    (f : AudioFile) (hdir : fs.dirExists = true) (hmem : f ∈ fs.files)
    (hwav : strEndsWith f.name ".wav" = true) :
    (f ∈ (runCleanup fs st now).fsAfter.files ↔ audioCutoffMs now ≤ f.mtime) ∧
    (f.mtime = audioCutoffMs now → f ∈ (runCleanup fs st now).fsAfter.files) ∧
    (f.mtime < audioCutoffMs now → f ∉ (runCleanup fs st now).fsAfter.files) := by
  have hfiles : (runCleanup fs st now).fsAfter.files
      = fs.files.filter (fun g => !staleWav (audioCutoffMs now) g) := by
    rw [runCleanup_fsAfter, cleanupAudioFiles_eq, if_pos hdir, deleteOldWav_fst']
  have hiff : f ∈ fs.files.filter (fun g => !staleWav (audioCutoffMs now) g)
      ↔ audioCutoffMs now ≤ f.mtime := by
    rw [List.mem_filter]
    unfold staleWav
    simp [hmem, hwav, Nat.not_lt]
  rw [hfiles]
  refine ⟨hiff, fun he => hiff.mpr (by rw [he]), fun hlt hmem' => ?_⟩
  have := hiff.mp hmem'
  omega

/-- C10: a file in the audio directory whose name does not end in `.wav` is
invisible to the cleanup subsystem — it survives `runCleanup`, its presence
changes neither the `getCleanupStats` snapshot (counts and size sums) nor
the `runCleanup` summary, and the cleanup's effect on the directory is
exactly the same with or without it. -/
theorem non_wav_files_untouched (fs : FS) (st : Store) (now : Nat) (x : AudioFile)
    (hx : strEndsWith x.name ".wav" = false) :
    (x ∈ fs.files → x ∈ (runCleanup fs st now).fsAfter.files) ∧
    getCleanupStats { dirExists := fs.dirExists, files := x :: fs.files } st now
        = getCleanupStats fs st now ∧
    (runCleanup { dirExists := fs.dirExists, files := x :: fs.files } st now).results
        = (runCleanup fs st now).results ∧
    (runCleanup { dirExists := fs.dirExists, files := x :: fs.files } st now).fsAfter.files
        = x :: (runCleanup fs st now).fsAfter.files := by
  have hkeep : (!staleWav (audioCutoffMs now) x) = true := by
    unfold staleWav
    simp [hx]
  have hcount : (cleanupAudioFiles { dirExists := fs.dirExists, files := x :: fs.files } now).2
      = (cleanupAudioFiles fs now).2 := by
    cases hdir : fs.dirExists with
    | true =>
      rw [cleanupAudioFiles_mk_true (x :: fs.files) now,
          cleanupAudioFiles_dir_true _ _ hdir]
      simp only [deleteOldWav_snd']
      rw [List.filter_cons, if_neg (by simp [staleWav, hx])]
    | false =>
      rw [cleanupAudioFiles_mk_false (x :: fs.files) now,
          cleanupAudioFiles_dir_false _ _ hdir]
  refine ⟨?_, ?_, ?_, ?_⟩
  · intro hmem
    rw [runCleanup_fsAfter]
    cases hdir : fs.dirExists with
    | true =>
      rw [cleanupAudioFiles_dir_true _ _ hdir]
      simp only [deleteOldWav_fst']
      exact List.mem_filter.mpr ⟨hmem, hkeep⟩
    | false =>
      rw [cleanupAudioFiles_dir_false _ _ hdir]
      exact hmem
  · unfold getCleanupStats
    cases hdir : fs.dirExists with
    | true => simp [List.filter_cons, hx]
    | false => simp
  · rw [runCleanup_results_eq, runCleanup_results_eq, hcount]
  · rw [runCleanup_fsAfter, runCleanup_fsAfter]
    cases hdir : fs.dirExists with
    | true =>
      rw [cleanupAudioFiles_mk_true (x :: fs.files) now,
          cleanupAudioFiles_dir_true _ _ hdir]
      simp only [deleteOldWav_fst']
      rw [List.filter_cons, if_pos hkeep]
    | false =>
      rw [cleanupAudioFiles_mk_false (x :: fs.files) now,
          cleanupAudioFiles_dir_false _ _ hdir]

/-- When the key already resolves to a row, the conflict-update arm keeps
that row's `id`, `publish_date` and `created_at`. -/
theorem create_preserves_identity (st : Store) (now : Nat) (d : CreateData) (old : Row)
    (hold : Newsletter.getByDate st d.publish_date = some old) :
    (Newsletter.create st now d).2.id = old.id ∧
    (Newsletter.create st now d).2.publish_date = old.publish_date ∧
    (Newsletter.create st now d).2.created_at = old.created_at := by
  unfold Newsletter.getByDate at hold
  unfold Newsletter.create
  split
  next o hfind =>
    rw [hold] at hfind
    injection hfind with ho
    subst ho
    exact ⟨rfl, rfl, rfl⟩
  next hfind =>
    rw [hold] at hfind
    cases hfind

/-- C3: upserting over an existing row leaves exactly one row for the key,
overwrites every content field with the payload's (coerced) values, bumps
`updated_at`, preserves `id`, `publish_date` and `created_at`, and returns
the stored row; consequently two successive `generate(D)` runs leave
exactly one record keyed `D`. -/
theorem upsert_by_date_semantics (st : Store) (now : Nat) (d : CreateData) (old : Row)
    (hwf : st.wf) (hold : Newsletter.getByDate st d.publish_date = some old) :
    countFor (Newsletter.create st now d).1 d.publish_date = 1 ∧
    (Newsletter.create st now d).2.id = old.id ∧
    (Newsletter.create st now d).2.publish_date = old.publish_date ∧
    (Newsletter.create st now d).2.created_at = old.created_at ∧
    (Newsletter.create st now d).2.updated_at = now ∧
    (Newsletter.create st now d).2.title = d.title ∧
    (Newsletter.create st now d).2.hook = d.hook ∧
    (Newsletter.create st now d).2.sections = d.sections ∧
    (Newsletter.create st now d).2.conclusion = d.conclusion ∧
    (Newsletter.create st now d).2.sources = d.sources ∧
    (Newsletter.create st now d).2.audio_url = normOpt d.audio_url ∧
    (Newsletter.create st now d).2.audio_duration_seconds = normNat d.audio_duration_seconds ∧
    (Newsletter.create st now d).2.generation_status = normStr d.generation_status "pending" ∧
    (Newsletter.create st now d).2.error_message = normOpt d.error_message ∧
    Newsletter.getByDate (Newsletter.create st now d).1 d.publish_date
      = some (Newsletter.create st now d).2 ∧
    (∀ (env1 env2 : GenEnv) (files1 files2 : List AudioFile) (now1 now2 : Nat) (D : String),
      countFor
        (generateDailyNewsletter env2
          (generateDailyNewsletter env1 st files1 D now1).1 files2 D now2).1 D = 1) := by
  obtain ⟨hid, hpd, hca⟩ := create_preserves_identity st now d old hold
  obtain ⟨_, ht, hh, hsec, hconc, hsrc, hau, hdur, hstat, herr, hup⟩ :=
    create_snd_fields st now d
  refine ⟨countFor_create st now d hwf, hid, hpd, hca, hup, ht, hh, hsec, hconc, hsrc,
          hau, hdur, hstat, herr, getByDate_create_self st now d, ?_⟩
  intro env1 env2 files1 files2 now1 now2 D
  exact generate_countFor env2 _ files2 D now2 (generate_wf env1 st files1 D now1 hwf)

/-- Witness for C3 at a concrete store, payload and clock. -/
theorem upsert_by_date_semantics_witness :
    (oneRowStore.wf ∧
     Newsletter.getByDate oneRowStore sampleUpdate.publish_date = some sampleOldRow) ∧
    (countFor (Newsletter.create oneRowStore sampleNow sampleUpdate).1
        sampleUpdate.publish_date = 1 ∧
     (Newsletter.create oneRowStore sampleNow sampleUpdate).2.id = sampleOldRow.id ∧
     (Newsletter.create oneRowStore sampleNow sampleUpdate).2.publish_date
        = sampleOldRow.publish_date ∧
     (Newsletter.create oneRowStore sampleNow sampleUpdate).2.created_at
        = sampleOldRow.created_at ∧
     (Newsletter.create oneRowStore sampleNow sampleUpdate).2.updated_at = sampleNow ∧
     (Newsletter.create oneRowStore sampleNow sampleUpdate).2.title = sampleUpdate.title ∧
     (Newsletter.create oneRowStore sampleNow sampleUpdate).2.hook = sampleUpdate.hook ∧
     (Newsletter.create oneRowStore sampleNow sampleUpdate).2.sections
        = sampleUpdate.sections ∧
     (Newsletter.create oneRowStore sampleNow sampleUpdate).2.conclusion
        = sampleUpdate.conclusion ∧
     (Newsletter.create oneRowStore sampleNow sampleUpdate).2.sources
        = sampleUpdate.sources ∧
     (Newsletter.create oneRowStore sampleNow sampleUpdate).2.audio_url
        = normOpt sampleUpdate.audio_url ∧
     (Newsletter.create oneRowStore sampleNow sampleUpdate).2.audio_duration_seconds
        = normNat sampleUpdate.audio_duration_seconds ∧
     (Newsletter.create oneRowStore sampleNow sampleUpdate).2.generation_status
        = normStr sampleUpdate.generation_status "pending" ∧
     (Newsletter.create oneRowStore sampleNow sampleUpdate).2.error_message
        = normOpt sampleUpdate.error_message ∧
     Newsletter.getByDate (Newsletter.create oneRowStore sampleNow sampleUpdate).1
        sampleUpdate.publish_date
        = some (Newsletter.create oneRowStore sampleNow sampleUpdate).2 ∧
     (∀ (env1 env2 : GenEnv) (files1 files2 : List AudioFile) (now1 now2 : Nat) (D : String),
       countFor
         (generateDailyNewsletter env2
           (generateDailyNewsletter env1 oneRowStore files1 D now1).1 files2 D now2).1
           D = 1)) :=
  ⟨⟨by unfold Store.wf oneRowStore; exact List.pairwise_singleton _ _, rfl⟩,
   upsert_by_date_semantics oneRowStore sampleNow sampleUpdate sampleOldRow
     (by unfold Store.wf oneRowStore; exact List.pairwise_singleton _ _) rfl⟩

/-- C2 counterexample: with content generation succeeding, the narration
call failing and the placeholder write succeeding, the run for 2025-06-01
ends with a `complete` record and no recorded error, instead of the
`failed` record with a non-null `errorMessage` that the claim requires for
every narration failure. -/
theorem narration_failure_not_marked_failed :
    envTtsFails.ttsOk = false ∧
    (Newsletter.getByDate
        (generateDailyNewsletter envTtsFails emptyStore [] "2025-06-01" sampleNow).1
        "2025-06-01").map (fun r => r.generation_status) = some "complete" ∧
    (Newsletter.getByDate
        (generateDailyNewsletter envTtsFails emptyStore [] "2025-06-01" sampleNow).1
        "2025-06-01").map (fun r => r.error_message) = some none :=
  ⟨rfl, rfl, rfl⟩

/-- C2 (amended): when content generation fails, when narration fails and
the placeholder fallback write also fails, or when the final persistence
fails — with a non-empty thrown message — the run re-throws that message,
the record for the date ends `failed` with that message as `errorMessage`,
and the failed record references no audio file; no retry happens inside the
run.  A narration failure alone is swallowed by the placeholder fallback
and the run completes (see the counterexample). -/
theorem generate_failure_records_failed (env : GenEnv) (st : Store)
    (files : List AudioFile) (d : String) (now : Nat) (m : String)
    (hm : genFailureMsg env = some m) (hne : m ≠ "") :
    (generateDailyNewsletter env st files d now).2.2 = Except.error m ∧
    (Newsletter.getByDate (generateDailyNewsletter env st files d now).1 d).map
        (fun r => r.generation_status) = some "failed" ∧
    (Newsletter.getByDate (generateDailyNewsletter env st files d now).1 d).map
        (fun r => r.error_message) = some (some m) ∧
    (Newsletter.getByDate (generateDailyNewsletter env st files d now).1 d).map
        (fun r => r.audio_url) = some none := by
  obtain ⟨hres, hst⟩ := generate_error_shape env st files d now m hm
  obtain ⟨h1, h2, h3⟩ := getByDate_after_failed_create
      (Newsletter.create st now (generatingData d)).1 d m now hne
  refine ⟨hres, ?_, ?_, ?_⟩ <;> rw [hst]
  exacts [h1, h2, h3]

/-- Witness for the amended C2 at a concrete environment whose content
generation throws. -/
theorem generate_failure_records_failed_witness :
    (genFailureMsg envContentFails = some "Newsletter generation failed: quota" ∧
     "Newsletter generation failed: quota" ≠ "") ∧
    ((generateDailyNewsletter envContentFails emptyStore [] "2025-06-01"
        sampleNow).2.2 = Except.error "Newsletter generation failed: quota" ∧
     (Newsletter.getByDate
        (generateDailyNewsletter envContentFails emptyStore [] "2025-06-01" sampleNow).1
        "2025-06-01").map (fun r => r.generation_status) = some "failed" ∧
     (Newsletter.getByDate
        (generateDailyNewsletter envContentFails emptyStore [] "2025-06-01" sampleNow).1
        "2025-06-01").map (fun r => r.error_message)
        = some (some "Newsletter generation failed: quota") ∧
     (Newsletter.getByDate
        (generateDailyNewsletter envContentFails emptyStore [] "2025-06-01" sampleNow).1
        "2025-06-01").map (fun r => r.audio_url) = some none) :=
  ⟨⟨rfl, by decide⟩,
   generate_failure_records_failed envContentFails emptyStore [] "2025-06-01" sampleNow
     "Newsletter generation failed: quota" rfl (by decide)⟩

/-- C5: the record for a run's date ends `complete` with a non-null
`audioUrl` only when an audio write (primary TTS output or placeholder)
succeeded, and then the deterministic file for the date is present in the
directory, stamped at the write instant; after a successful run exactly one
audio file and exactly one record are live for the date. -/
theorem complete_record_implies_audio_written (env : GenEnv) (st : Store)
    (files : List AudioFile) (d : String) (now : Nat) (hwf : st.wf) :
    (∀ r : Row,
      Newsletter.getByDate (generateDailyNewsletter env st files d now).1 d = some r →
      r.generation_status = "complete" →
      r.audio_url.isSome = true →
      (env.ttsOk = true ∨ env.placeholderOk = true) ∧
      ∃ f : AudioFile, f ∈ (generateDailyNewsletter env st files d now).2.1 ∧
        f.name = audioFileName d ∧ f.mtime = now) ∧
    (∀ r : Row,
      (generateDailyNewsletter env st files d now).2.2 = Except.ok r →
      countFor (generateDailyNewsletter env st files d now).1 d = 1 ∧
      ((generateDailyNewsletter env st files d now).2.1.filter
          (fun f => decide (f.name = audioFileName d))).length = 1) := by
  cases hgm : genFailureMsg env with
  | some m =>
    obtain ⟨hres, hst⟩ := generate_error_shape env st files d now m hgm
    constructor
    · intro r hr hstat _
      rw [hst] at hr
      have h := getByDate_create_self
          (Newsletter.create st now (generatingData d)).1 now (failedData d m)
      rw [show (failedData d m).publish_date = d from rfl] at h
      rw [h] at hr
      injection hr with hr'
      obtain ⟨_, _, _, _, _, _, _, _, hstat', _, _⟩ := create_snd_fields
          (Newsletter.create st now (generatingData d)).1 now (failedData d m)
      have hfail : r.generation_status = "failed" := by
        rw [← hr']
        exact hstat'.trans rfl
      rw [hfail] at hstat
      exact absurd hstat (by decide)
    · intro r hok
      rw [hres] at hok
      cases hok
  | none =>
    obtain ⟨c, hc, hsave, hor, heq⟩ := generate_success_shape env st files d now hgm
    constructor
    · intro r _ _ _
      refine ⟨hor, ⟨audioFileName d,
        (if env.ttsOk = true then 44 + env.pcmBytes else placeholderBytes), now⟩,
        ?_, rfl, rfl⟩
      rw [heq]
      show _ ∈ writeAudio files (audioFileName d) _ now
      unfold writeAudio
      exact List.mem_append_right _ (List.mem_singleton.mpr rfl)
    · intro r hok
      constructor
      · rw [heq]
        exact countFor_create _ _ _ (wf_create _ _ _ hwf)
      · rw [heq]
        show ((writeAudio files (audioFileName d)
            (if env.ttsOk = true then 44 + env.pcmBytes else placeholderBytes) now).filter
              (fun f => decide (f.name = audioFileName d))).length = 1
        unfold writeAudio
        rw [List.filter_append,
            filter_after_keep (fun f : AudioFile => decide (f.name = audioFileName d)) files]
        simp

/-- Witness for C5 at a fully successful concrete run. -/
theorem complete_record_implies_audio_written_witness :
    emptyStore.wf ∧
    ((∀ r : Row,
      Newsletter.getByDate
          (generateDailyNewsletter envAllOk emptyStore [] "2025-06-01" sampleNow).1
          "2025-06-01" = some r →
      r.generation_status = "complete" →
      r.audio_url.isSome = true →
      (envAllOk.ttsOk = true ∨ envAllOk.placeholderOk = true) ∧
      ∃ f : AudioFile,
        f ∈ (generateDailyNewsletter envAllOk emptyStore [] "2025-06-01" sampleNow).2.1 ∧
        f.name = audioFileName "2025-06-01" ∧ f.mtime = sampleNow) ∧
    (∀ r : Row,
      (generateDailyNewsletter envAllOk emptyStore [] "2025-06-01" sampleNow).2.2
          = Except.ok r →
      countFor (generateDailyNewsletter envAllOk emptyStore [] "2025-06-01" sampleNow).1
          "2025-06-01" = 1 ∧
      ((generateDailyNewsletter envAllOk emptyStore [] "2025-06-01" sampleNow).2.1.filter
          (fun f => decide (f.name = audioFileName "2025-06-01"))).length = 1)) :=
  ⟨by unfold Store.wf emptyStore; exact List.Pairwise.nil,
   complete_record_implies_audio_written envAllOk emptyStore [] "2025-06-01" sampleNow
     (by unfold Store.wf emptyStore; exact List.Pairwise.nil)⟩

/-- The `/generate` handler with the correct key and a well-formed,
non-empty date runs the whole pipeline and answers from its result. -/
theorem postGenerate_authorized (secret d : String) (env : GenEnv) (st : Store)
    (files : List AudioFile) (now : Nat) (hne : d ≠ "")
    (hfmt : matchesDateFormat d = true) :
    postGenerate secret ⟨some secret, some d⟩ env st files now
      = ((generateDailyNewsletter env st files d now).1,
         (generateDailyNewsletter env st files d now).2.1,
         match (generateDailyNewsletter env st files d now).2.2 with
         | Except.ok r => GenerateOutcome.created r
         | Except.error m => GenerateOutcome.serverError m) := by
  unfold postGenerate
  simp only [ne_eq, not_true_eq_false, if_false, hfmt, Bool.not_true, hne]
  simp only [Bool.false_eq_true, if_false]
  cases (generateDailyNewsletter env st files d now).2.2 <;> rfl

/-- C1 counterexample: a correctly-authenticated request with a well-formed
date is answered 200, not 202, and the response body already carries the
fully generated record with status `complete` — the handler responded after
the pipeline finished, not before it started. -/
theorem generate_route_counterexample :
    generateStatus (postGenerate "secret-key"
        ⟨some "secret-key", some "2025-06-01"⟩ envAllOk emptyStore [] sampleNow).2.2
      = 200 ∧
    generateStatus (postGenerate "secret-key"
        ⟨some "secret-key", some "2025-06-01"⟩ envAllOk emptyStore [] sampleNow).2.2
      ≠ 202 ∧
    (createdRecord (postGenerate "secret-key"
        ⟨some "secret-key", some "2025-06-01"⟩ envAllOk emptyStore [] sampleNow).2.2).map
        (fun r => r.generation_status) = some "complete" :=
  ⟨rfl, by decide, rfl⟩

/-- C1 (amended): with the correct shared secret and a well-formed date,
`POST /newsletter/generate` does not acknowledge with 202 and detach — it
awaits the complete pipeline and answers from its final state: 200 with the
completed record when the run succeeds, 500 when it throws; the store and
directory already carry the run's effects when the response is produced. -/
theorem generate_route_awaits_pipeline (secret d : String) (env : GenEnv)
    (st : Store) (files : List AudioFile) (now : Nat)
    (hne : d ≠ "") (hfmt : matchesDateFormat d = true) :
    (postGenerate secret ⟨some secret, some d⟩ env st files now).1
      = (generateDailyNewsletter env st files d now).1 ∧
    (postGenerate secret ⟨some secret, some d⟩ env st files now).2.1
      = (generateDailyNewsletter env st files d now).2.1 ∧
    generateStatus
        (postGenerate secret ⟨some secret, some d⟩ env st files now).2.2 ≠ 202 ∧
    (generateStatus
        (postGenerate secret ⟨some secret, some d⟩ env st files now).2.2 = 200 ∨
     generateStatus
        (postGenerate secret ⟨some secret, some d⟩ env st files now).2.2 = 500) ∧
    (∀ r : Row,
      (postGenerate secret ⟨some secret, some d⟩ env st files now).2.2
          = GenerateOutcome.created r →
      (generateDailyNewsletter env st files d now).2.2 = Except.ok r ∧
      r.generation_status = "complete") := by
  have hpost := postGenerate_authorized secret d env st files now hne hfmt
  cases hres : (generateDailyNewsletter env st files d now).2.2 with
  | ok r0 =>
    rw [hres] at hpost
    rw [hpost]
    refine ⟨rfl, rfl, (by decide : (200 : Nat) ≠ 202), Or.inl rfl, ?_⟩
    intro r hr
    have hr' : GenerateOutcome.created r0 = GenerateOutcome.created r := hr
    injection hr' with h0
    subst h0
    refine ⟨rfl, ?_⟩
    cases hgm : genFailureMsg env with
    | some m =>
      obtain ⟨he, _⟩ := generate_error_shape env st files d now m hgm
      rw [he] at hres
      cases hres
    | none =>
      obtain ⟨c, _, _, _, heq⟩ := generate_success_shape env st files d now hgm
      have hok : (generateDailyNewsletter env st files d now).2.2
          = Except.ok ((Newsletter.create (Newsletter.create st now (generatingData d)).1
              now (completeData d c env.durationSeconds)).2) := by rw [heq]
      rw [hres] at hok
      injection hok with h1
      rw [h1]
      obtain ⟨_, _, _, _, _, _, _, _, hstat, _, _⟩ := create_snd_fields
          (Newsletter.create st now (generatingData d)).1 now
          (completeData d c env.durationSeconds)
      exact hstat.trans rfl
  | error m =>
    rw [hres] at hpost
    rw [hpost]
    refine ⟨rfl, rfl, (by decide : (500 : Nat) ≠ 202), Or.inr rfl, ?_⟩
    intro r hr
    have hr' : GenerateOutcome.serverError m = GenerateOutcome.created r := hr
    cases hr'

/-- Witness for the amended C1 at a concrete authorized request. -/
theorem generate_route_awaits_pipeline_witness :
    ("2025-06-01" ≠ "" ∧ matchesDateFormat "2025-06-01" = true) ∧
    ((postGenerate "secret-key" ⟨some "secret-key", some "2025-06-01"⟩ envAllOk
        emptyStore [] sampleNow).1
      = (generateDailyNewsletter envAllOk emptyStore [] "2025-06-01" sampleNow).1 ∧
    (postGenerate "secret-key" ⟨some "secret-key", some "2025-06-01"⟩ envAllOk
        emptyStore [] sampleNow).2.1
      = (generateDailyNewsletter envAllOk emptyStore [] "2025-06-01" sampleNow).2.1 ∧
    generateStatus (postGenerate "secret-key"
        ⟨some "secret-key", some "2025-06-01"⟩ envAllOk emptyStore [] sampleNow).2.2
        ≠ 202 ∧
    (generateStatus (postGenerate "secret-key"
        ⟨some "secret-key", some "2025-06-01"⟩ envAllOk emptyStore [] sampleNow).2.2
        = 200 ∨
     generateStatus (postGenerate "secret-key"
        ⟨some "secret-key", some "2025-06-01"⟩ envAllOk emptyStore [] sampleNow).2.2
        = 500) ∧
    (∀ r : Row,
      (postGenerate "secret-key" ⟨some "secret-key", some "2025-06-01"⟩ envAllOk
          emptyStore [] sampleNow).2.2 = GenerateOutcome.created r →
      (generateDailyNewsletter envAllOk emptyStore [] "2025-06-01" sampleNow).2.2
          = Except.ok r ∧
      r.generation_status = "complete")) :=
  ⟨⟨by decide, by decide⟩,
   generate_route_awaits_pipeline "secret-key" "2025-06-01" envAllOk emptyStore []
     sampleNow (by decide) (by decide)⟩

/-- C7 (code bug): because `GET /:date` is registered before `GET /history`,
the parameter route captures the literal segment `history`, the date-format
check rejects it, and every request to `/newsletter/history` — whatever its
`limit` — is answered 400 "invalid date format"; the history handler with
its `[1, 365]` validation is unreachable. -/
theorem history_route_shadowed_by_date_route (st : Store) (q : Option String) :
    dispatchNewsletterGet st "history" q = NewsGetOutcome.invalidDate ∧
    newsGetStatus (dispatchNewsletterGet st "history" q) = 400 :=
  ⟨rfl, rfl⟩

/-- C8 (code bug): the delete route calls `Newsletter.getById`, a method the
model object never defines, so every request with the correct secret and a
parseable numeric id — whether or not a matching record exists — ends in the
handler's catch with a 500 response and an unchanged store; the documented
404/deletion behavior is unreachable. -/
theorem delete_by_id_route_broken (secret idParam : String) (st : Store) (n : Int)
    (hp : parseIntJS (some idParam) = some n) :
    handleDeleteById secret (some secret) idParam st
      = (st, DeleteOutcome.serverError "Newsletter.getById is not a function") ∧
    deleteStatus (handleDeleteById secret (some secret) idParam st).2 = 500 := by
  have h : handleDeleteById secret (some secret) idParam st
      = (st, DeleteOutcome.serverError "Newsletter.getById is not a function") := by
    unfold handleDeleteById
    rw [if_neg (by simp), hp]
    rfl
  exact ⟨h, by rw [h]; rfl⟩

/-- Witness for C8: a concrete authorized delete of id 1 on a store that
does hold a record with id 1 still responds 500. -/
theorem delete_by_id_route_broken_witness :
    parseIntJS (some "1") = some 1 ∧
    (handleDeleteById "secret-key" (some "secret-key") "1" oneRowStore
      = (oneRowStore, DeleteOutcome.serverError "Newsletter.getById is not a function") ∧
    deleteStatus (handleDeleteById "secret-key" (some "secret-key") "1" oneRowStore).2
      = 500) :=
  ⟨by decide,
   delete_by_id_route_broken "secret-key" "1" oneRowStore 1 (by decide)⟩

/-- Witness for C6: an artifact stamped exactly at the cutoff for the
sample clock survives the cleanup. -/
theorem audio_delete_iff_strictly_older_witness :
    (cutoffFS.dirExists = true ∧ cutoffFile ∈ cutoffFS.files ∧
     strEndsWith cutoffFile.name ".wav" = true) ∧
    ((cutoffFile ∈ (runCleanup cutoffFS emptyStore sampleNow).fsAfter.files ↔
        audioCutoffMs sampleNow ≤ cutoffFile.mtime) ∧
     (cutoffFile.mtime = audioCutoffMs sampleNow →
        cutoffFile ∈ (runCleanup cutoffFS emptyStore sampleNow).fsAfter.files) ∧
     (cutoffFile.mtime < audioCutoffMs sampleNow →
        cutoffFile ∉ (runCleanup cutoffFS emptyStore sampleNow).fsAfter.files)) :=
  ⟨⟨rfl, by decide, by decide⟩,
   audio_delete_iff_strictly_older cutoffFS emptyStore sampleNow cutoffFile rfl
     (by decide) (by decide)⟩

/-- Witness for C10: a stray `notes.txt` next to a stale artifact is kept
and never counted. -/
theorem non_wav_files_untouched_witness :
    strEndsWith strayFile.name ".wav" = false ∧
    ((strayFile ∈ mixedFS.files →
        strayFile ∈ (runCleanup mixedFS emptyStore sampleNow).fsAfter.files) ∧
     getCleanupStats { dirExists := mixedFS.dirExists, files := strayFile :: mixedFS.files }
         emptyStore sampleNow = getCleanupStats mixedFS emptyStore sampleNow ∧
     (runCleanup { dirExists := mixedFS.dirExists, files := strayFile :: mixedFS.files }
         emptyStore sampleNow).results = (runCleanup mixedFS emptyStore sampleNow).results ∧
     (runCleanup { dirExists := mixedFS.dirExists, files := strayFile :: mixedFS.files }
         emptyStore sampleNow).fsAfter.files
        = strayFile :: (runCleanup mixedFS emptyStore sampleNow).fsAfter.files) :=
  ⟨by decide, non_wav_files_untouched mixedFS emptyStore sampleNow strayFile (by decide)⟩
